import Mathlib

/-!
Shallow embedding of the `github_connector` package: the `GitHubClient`
class of `src/github_connector/client.py` (its `__init__`, `_get_headers`
and `_make_request` methods) and the exception taxonomy of
`src/github_connector/custom_exceptions.py`.

The HTTP transport (`requests.request`) is modelled as a function from the
attempt index to the outcome of that attempt: either a completed response
(status code, reason phrase, optional `Retry-After` header, already-parsed
JSON body) or a raised `requests` exception.  `ConnectionError` and
`Timeout` are merged into one constructor because `_make_request` handles
them identically in a single `except` clause; every other
`RequestException` raised by the transport is the `reqError` constructor.

Observable behaviour is a `RunResult`: how many requests were issued, the
argument of every `time.sleep` call in order, and the final outcome.  The
final outcome is either a returned payload, a raised `GitHubAPIError`
(represented by the `GHError` taxonomy below), or a raised Python
`ValueError` escaping the taxonomy (`int()` on a malformed `Retry-After`
header, or `time.sleep` on a negative duration).
-/

namespace GithubConnector

/-- Python truthiness of an optional string: `None` and `""` are falsy. -/
def pyTruthy : Option String → Bool
  | none => false
  | some s => !s.isEmpty

/-- Value of a nonempty all-digit character list, as `int()` reads it. -/
def digitsVal (cs : List Char) : Option Nat :=
  if cs ≠ [] ∧ cs.all Char.isDigit then
    some (cs.foldl (fun a c => a * 10 + (c.toNat - 48)) 0)
  else none

/-- Model of Python `int(s)` on a string: strip surrounding whitespace,
accept an optional sign followed by decimal digits; `none` models the
`ValueError` raised on any other input. -/
def pyToInt (s : String) : Option Int :=
  let cs := ((s.data.dropWhile Char.isWhitespace).reverse.dropWhile
      Char.isWhitespace).reverse
  match cs with
  | '+' :: rest => (digitsVal rest).map Int.ofNat
  | '-' :: rest => (digitsVal rest).map (fun n => -(n : Int))
  | rest => (digitsVal rest).map Int.ofNat

/-- The exception taxonomy of `custom_exceptions.py`.  `apiError` is a
`GitHubAPIError` raised directly with a message (its `status_code`
defaults to `None`); the four subclasses keep their constructor
arguments. -/
inductive GHError where
  | resourceNotFound (resource : String)
  | authenticationError
  | rateLimitExceeded (retry_after : Option Int)
  | networkError (original_error : String)
  | apiError (msg : String)
  deriving Repr, DecidableEq

/-- The `message` attribute set by each exception constructor. -/
def GHError.message : GHError → String
  | .resourceNotFound resource => "Resource not found: " ++ resource
  | .authenticationError => "Authentication failed. Check your GITHUB_TOKEN"
  | .rateLimitExceeded retry_after =>
      "GitHub API rate limit exceeded" ++
        match retry_after with
        | some n =>
            if n ≠ 0 then ". Retry after " ++ toString n ++ " seconds" else ""
        | none => ""
  | .networkError original_error => "Network error: " ++ original_error
  | .apiError msg => msg

/-- The `status_code` attribute set by each exception constructor
(`none` models Python `None`, the base-class default). -/
def GHError.status_code : GHError → Option Int
  | .resourceNotFound _ => some 404
  | .authenticationError => some 401
  | .rateLimitExceeded _ => some 429
  | .networkError _ => none
  | .apiError _ => none

/-- Outcome of one call of the transport (`requests.request`) at a given
attempt index: a completed response, or a raised exception.  `connError`
covers `ConnectionError` and `Timeout` (handled identically by the code);
`reqError` covers any other `RequestException`. -/
inductive AttemptResult (α : Type) where
  | response (status : Nat) (reason : String) (retryAfterHdr : Option String)
      (body : α)
  | connError (errMsg : String)
  | reqError (errMsg : String)
  deriving Repr, DecidableEq

/-- Final outcome of `_make_request`: a returned payload, a raised
`GitHubAPIError` (or subclass), or a raised Python `ValueError` that is
outside the `GitHubAPIError` taxonomy. -/
inductive ExecResult (α : Type) where
  | ok (payload : α)
  | err (e : GHError)
  | valueError (msg : String)
  deriving Repr, DecidableEq

/-- Observable behaviour of one `_make_request` call: number of requests
issued, the durations passed to `time.sleep` in order, and the final
outcome. -/
structure RunResult (α : Type) where
  attempts : Nat
  sleeps : List Int
  result : ExecResult α
  deriving Repr, DecidableEq

/-- What one loop iteration decides: terminate (return or raise), or
sleep for `d` time units and continue with the next attempt. -/
inductive StepResult (α : Type) where
  | done (r : ExecResult α)
  | retry (d : Int)
  deriving Repr, DecidableEq

def BASE_URL : String := "https://api.github.com"
def MAX_RETRIES : Nat := 3
def INITIAL_BACKOFF : Int := 1

/-- Message of the `HTTPError` raised by `response.raise_for_status()`
for a status in 400..599. -/
def httpErrorStr (status : Nat) (reason : String) (endpoint : String) :
    String :=
  toString status ++
    (if status < 500 then " Client Error: " else " Server Error: ") ++
    reason ++ " for url: " ++ BASE_URL ++ endpoint

/-- Value of `int(response.headers.get('Retry-After', INITIAL_BACKOFF *
(2 ** attempt)))`: the parsed header when present (`none` when `int()`
raises `ValueError`), else the exponential fallback. -/
def computedRetryAfter (retryAfterHdr : Option String) (attempt : Nat) :
    Option Int :=
  match retryAfterHdr with
  | some s => pyToInt s
  | none => some (INITIAL_BACKOFF * 2 ^ attempt)

/-- One iteration of the `for attempt in range(MAX_RETRIES)` loop body of
`_make_request`, given the transport's outcome for this attempt.
`retryAllowed` is the value of `attempt < self.MAX_RETRIES - 1`. -/
def attemptStep {α : Type} (endpoint : String) (attempt : Nat)
    (retryAllowed : Bool) : AttemptResult α → StepResult α
  | .response status reason retryAfterHdr body =>
      if status == 404 then
        .done (.err (.resourceNotFound endpoint))
      else if status == 401 then
        .done (.err .authenticationError)
      else if status == 429 || status == 403 then
        match computedRetryAfter retryAfterHdr attempt with
        | none =>
            .done (.valueError ("invalid literal for int() with base 10: " ++
              retryAfterHdr.getD ""))
        | some retry_after =>
            if retryAllowed then .retry retry_after
            else .done (.err (.rateLimitExceeded (some retry_after)))
      else if 400 ≤ status && status < 600 then
        .done (.err (.apiError ("Request failed: " ++
          httpErrorStr status reason endpoint)))
      else
        .done (.ok body)
  | .connError errMsg =>
      if retryAllowed then .retry (INITIAL_BACKOFF * 2 ^ attempt)
      else .done (.err (.networkError errMsg))
  | .reqError errMsg =>
      .done (.err (.apiError ("Request failed: " ++ errMsg)))

/-- Effect of `time.sleep(d); continue` on the rest of the run: Python
`time.sleep` raises `ValueError` on a negative duration, otherwise the
sleep is recorded and the loop continues as `rest`. -/
def sleepThen {α : Type} (d : Int) (rest : RunResult α) : RunResult α :=
  if d < 0 then ⟨1, [], .valueError "sleep length must be non-negative"⟩
  else ⟨rest.attempts + 1, d :: rest.sleeps, rest.result⟩

/-- The retry loop of `_make_request`, from attempt index `attempt` with
`fuel` iterations left (the loop runs `fuel = MAX_RETRIES - attempt`
iterations; exhausting the fuel is the fall-through
`raise GitHubAPIError("Max retries exceeded")` after the loop). -/
def runFrom {α : Type} (endpoint : String)
    (transport : Nat → AttemptResult α) : Nat → Nat → RunResult α
  | 0, _ => ⟨0, [], .err (.apiError "Max retries exceeded")⟩
  | fuel + 1, attempt =>
      match attemptStep endpoint attempt (decide (attempt < MAX_RETRIES - 1))
          (transport attempt) with
      | .done r => ⟨1, [], r⟩
      | .retry d => sleepThen d (runFrom endpoint transport fuel (attempt + 1))

/-- `GitHubClient._make_request(method, endpoint)` under a given
transport.  The HTTP method does not influence control flow and is
omitted. -/
def makeRequest {α : Type} (endpoint : String)
    (transport : Nat → AttemptResult α) : RunResult α :=
  runFrom endpoint transport MAX_RETRIES 0

/-- The `GitHubClient` state after `__init__`: the stored credential. -/
structure GitHubClient where
  token : Option String
  deriving Repr, DecidableEq

/-- `GitHubClient.__init__`: `self.token = token or os.getenv("GITHUB_TOKEN")`.
`envToken` is the value of `os.getenv("GITHUB_TOKEN")` (`none` when the
variable is unset). -/
def GitHubClient.init (token envToken : Option String) : GitHubClient :=
  ⟨if pyTruthy token then token else envToken⟩

/-- `GitHubClient._get_headers`, as an ordered association list (Python
dicts preserve insertion order). -/
def GitHubClient.getHeaders (c : GitHubClient) : List (String × String) :=
  let headers := [("Accept", "application/vnd.github+json"),
    ("X-GitHub-Api-Version", "2022-11-28")]
  if pyTruthy c.token then
    headers ++ [("Authorization", "Bearer " ++ c.token.getD "")]
  else headers

/-! Concrete transports used to instantiate the theorems below. -/

/-- A transport that always answers 404. -/
def tNotFound : Nat → AttemptResult String :=
  fun _ => .response 404 "Not Found" none ""

/-- A transport that always answers 401. -/
def tAuthFail : Nat → AttemptResult String :=
  fun _ => .response 401 "Unauthorized" none ""

/-- A transport that always answers 429 with a non-integer
`Retry-After` header. -/
def tMalformedHdr : Nat → AttemptResult String :=
  fun _ => .response 429 "Too Many Requests" (some "soon") ""

/-- A transport whose every attempt raises `ConnectionError`. -/
def tConnFail : Nat → AttemptResult String :=
  fun _ => .connError "Connection refused"

/-- A transport answering 429 with `Retry-After: 7` on attempts 0 and 1
and 200 on attempt 2. -/
def tTwo429Then200 : Nat → AttemptResult String := fun i =>
  if i ≤ 1 then .response 429 "Too Many Requests" (some "7") ""
  else .response 200 "OK" none "payload"

/-- A transport answering 429 with the non-integer header
`Retry-After: soon` on attempts 0 and 1 and 200 on attempt 2. -/
def tTwo429SoonThen200 : Nat → AttemptResult String := fun i =>
  if i ≤ 1 then .response 429 "Too Many Requests" (some "soon") ""
  else .response 200 "OK" none "payload"

/-- A transport that always answers 429 without a `Retry-After` header. -/
def tAll429 : Nat → AttemptResult String :=
  fun _ => .response 429 "Too Many Requests" none ""

/-! Unfolding lemmas for the retry loop. -/

theorem runFrom_zero {α : Type} (endpoint : String)
    (transport : Nat → AttemptResult α) (attempt : Nat) :
    runFrom endpoint transport 0 attempt =
      ⟨0, [], .err (.apiError "Max retries exceeded")⟩ := rfl

theorem runFrom_succ {α : Type} (endpoint : String)
    (transport : Nat → AttemptResult α) (fuel attempt : Nat) :
    runFrom endpoint transport (fuel + 1) attempt =
      match attemptStep endpoint attempt (decide (attempt < MAX_RETRIES - 1))
          (transport attempt) with
      | .done r => ⟨1, [], r⟩
      | .retry d =>
          sleepThen d (runFrom endpoint transport fuel (attempt + 1)) := rfl

/-- C5: for every path, a 404 response on the first attempt means exactly
one attempt, no sleep, and a raised `ResourceNotFound` whose message
contains the requested path and whose status code is 404. -/
theorem notFoundImmediate (transport : Nat → AttemptResult String)
    (endpoint reason : String) (retryAfterHdr : Option String) (body : String)
    (h : transport 0 = .response 404 reason retryAfterHdr body) :
    makeRequest endpoint transport =
      ⟨1, [], .err (.resourceNotFound endpoint)⟩ ∧
    (∃ a b : String,
      (GHError.resourceNotFound endpoint).message = a ++ endpoint ++ b) ∧
    (GHError.resourceNotFound endpoint).status_code = some 404 := by
  refine ⟨?_, ⟨"Resource not found: ", "", ?_⟩, rfl⟩
  · show runFrom endpoint transport 3 0 = _
    rw [show (3 : Nat) = 2 + 1 from rfl, runFrom_succ, h]
    simp [attemptStep]
  · simp [GHError.message]

/-- Witness for C5 at a concrete transport and path. -/
theorem notFoundImmediate_w :
    makeRequest "/repos/octocat/missing" tNotFound =
      ⟨1, [], .err (.resourceNotFound "/repos/octocat/missing")⟩ :=
  (notFoundImmediate tNotFound "/repos/octocat/missing" "Not Found" none ""
    rfl).1

/-- C6: for every path, a 401 response on the first attempt means exactly
one attempt, no sleep, and a raised `AuthenticationError` with the fixed
message directing the caller to check credentials and status code 401. -/
theorem authFailImmediate (transport : Nat → AttemptResult String)
    (endpoint reason : String) (retryAfterHdr : Option String) (body : String)
    (h : transport 0 = .response 401 reason retryAfterHdr body) :
    makeRequest endpoint transport = ⟨1, [], .err .authenticationError⟩ ∧
    GHError.authenticationError.message =
      "Authentication failed. Check your GITHUB_TOKEN" ∧
    GHError.authenticationError.status_code = some 401 := by
  refine ⟨?_, rfl, rfl⟩
  show runFrom endpoint transport 3 0 = _
  rw [show (3 : Nat) = 2 + 1 from rfl, runFrom_succ, h]
  simp [attemptStep]

/-- Witness for C6 at a concrete transport and path. -/
theorem authFailImmediate_w :
    makeRequest "/repos/octocat/Hello-World" tAuthFail =
      ⟨1, [], .err .authenticationError⟩ :=
  (authFailImmediate tAuthFail "/repos/octocat/Hello-World" "Unauthorized"
    none "" rfl).1

/-- C10: a 429 or 403 response whose `Retry-After` header does not parse
as an integer makes `_make_request` raise `ValueError` from `int()` — an
exception outside the `GitHubAPIError` taxonomy — on any attempt index,
instead of retrying or raising a classified API error; when it happens on
the first attempt the call ends after one attempt with no sleep. -/
theorem malformedRetryAfterValueError (endpoint reason s body : String)
    (status : Nat) (hst : status = 429 ∨ status = 403)
    (hbad : pyToInt s = none) :
    (∀ (attempt : Nat) (retryAllowed : Bool),
      attemptStep endpoint attempt retryAllowed
          (.response status reason (some s) body) =
        .done (.valueError ("invalid literal for int() with base 10: " ++ s))) ∧
    (∀ transport : Nat → AttemptResult String,
      transport 0 = .response status reason (some s) body →
      (makeRequest endpoint transport).attempts = 1 ∧
      (makeRequest endpoint transport).sleeps = [] ∧
      (makeRequest endpoint transport).result =
        .valueError ("invalid literal for int() with base 10: " ++ s) ∧
      ∀ g : GHError, (makeRequest endpoint transport).result ≠ .err g) := by
  have hstep : ∀ (attempt : Nat) (retryAllowed : Bool),
      attemptStep endpoint attempt retryAllowed
          (.response status reason (some s) body) =
        .done (.valueError ("invalid literal for int() with base 10: " ++ s)) := by
    intro attempt retryAllowed
    rcases hst with h | h <;> subst h <;>
      simp [attemptStep, computedRetryAfter, hbad]
  refine ⟨hstep, ?_⟩
  intro transport ht
  have hrun : makeRequest endpoint transport =
      ⟨1, [], .valueError ("invalid literal for int() with base 10: " ++ s)⟩ := by
    show runFrom endpoint transport 3 0 = _
    rw [show (3 : Nat) = 2 + 1 from rfl, runFrom_succ, ht, hstep]
  rw [hrun]
  exact ⟨rfl, rfl, rfl, fun g hg => by simp at hg⟩

/-- A 429 or 403 response whose `Retry-After` computation yields `n`
either retries after `n` or, on the last attempt, raises
`RateLimitExceeded n`. -/
theorem step429or403 {α : Type} {endpoint : String} {attempt status : Nat}
    {reason : String} {retryAfterHdr : Option String} {body : α} {n : Int}
    (hst : status = 429 ∨ status = 403)
    (hra : computedRetryAfter retryAfterHdr attempt = some n)
    (retryAllowed : Bool) :
    attemptStep endpoint attempt retryAllowed
        (.response status reason retryAfterHdr body) =
      if retryAllowed then .retry n
      else .done (.err (.rateLimitExceeded (some n))) := by
  rcases hst with rfl | rfl <;> simp [attemptStep, hra]

/-- A 2xx response is a terminal success returning the parsed body. -/
theorem stepSuccess {α : Type} {endpoint : String} {attempt status : Nat}
    {reason : String} {retryAfterHdr : Option String} {body : α}
    (h2 : 200 ≤ status ∧ status < 300) (retryAllowed : Bool) :
    attemptStep endpoint attempt retryAllowed
        (.response status reason retryAfterHdr body) = .done (.ok body) := by
  obtain ⟨hlo, hhi⟩ := h2
  have h404 : (status == 404) = false := by simp; omega
  have h401 : (status == 401) = false := by simp; omega
  have h429 : (status == 429) = false := by simp; omega
  have h403 : (status == 403) = false := by simp; omega
  have hr : ¬(400 ≤ status ∧ status < 600) := by omega
  simp [attemptStep, h404, h401, h429, h403, hr]

/-- C3: on every retried attempt with index `i`, a 429/403 response
sleeps for the integer value of the `Retry-After` header when present,
and for `INITIAL_BACKOFF * 2 ^ i` when absent; a connectivity failure
always sleeps for `INITIAL_BACKOFF * 2 ^ i` (it carries no header). -/
theorem backoffDurations (endpoint : String) (i : Nat)
    (hi : i < MAX_RETRIES - 1) :
    (∀ (status : Nat) (reason s body : String) (n : Int),
      status = 429 ∨ status = 403 → pyToInt s = some n →
      attemptStep (α := String) endpoint i (decide (i < MAX_RETRIES - 1))
          (.response status reason (some s) body) = .retry n) ∧
    (∀ (status : Nat) (reason body : String),
      status = 429 ∨ status = 403 →
      attemptStep (α := String) endpoint i (decide (i < MAX_RETRIES - 1))
          (.response status reason none body) =
        .retry (INITIAL_BACKOFF * 2 ^ i)) ∧
    (∀ errMsg : String,
      attemptStep (α := String) endpoint i (decide (i < MAX_RETRIES - 1))
          (.connError errMsg) = .retry (INITIAL_BACKOFF * 2 ^ i)) := by
  have hd : decide (i < MAX_RETRIES - 1) = true := decide_eq_true hi
  refine ⟨?_, ?_, ?_⟩
  · intro status reason s body n hst hs
    rw [step429or403 hst
      (show computedRetryAfter (some s) i = some n by
        simp [computedRetryAfter, hs]), hd]
    simp
  · intro status reason body hst
    rw [step429or403 hst
      (show computedRetryAfter none i = some (INITIAL_BACKOFF * 2 ^ i)
        from rfl), hd]
    simp
  · intro errMsg
    simp [attemptStep, hd]

/-- Witness for C3 at concrete attempts, headers and statuses. -/
theorem backoffDurations_w :
    attemptStep (α := String) "/repos/octocat/Hello-World" 0
        (decide (0 < MAX_RETRIES - 1))
        (.response 429 "Too Many Requests" (some "7") "") = .retry 7 ∧
    attemptStep (α := String) "/repos/octocat/Hello-World" 1
        (decide (1 < MAX_RETRIES - 1))
        (.response 403 "Forbidden" none "") = .retry 2 ∧
    attemptStep (α := String) "/repos/octocat/Hello-World" 1
        (decide (1 < MAX_RETRIES - 1)) (.connError "timed out") = .retry 2 := by
  refine ⟨?_, ?_, ?_⟩
  · exact (backoffDurations "/repos/octocat/Hello-World" 0 (by decide)).1
      429 "Too Many Requests" "7" "" 7 (Or.inl rfl) rfl
  · have h := (backoffDurations "/repos/octocat/Hello-World" 1 (by decide)).2.1
      403 "Forbidden" "" (Or.inr rfl)
    simpa [INITIAL_BACKOFF] using h
  · have h := (backoffDurations "/repos/octocat/Hello-World" 1 (by decide)).2.2
      "timed out"
    simpa [INITIAL_BACKOFF] using h

/-- C4: when every attempt fails at the connectivity level,
`_make_request` performs exactly 3 attempts (sleeping 1 then 2 time
units) and raises `NetworkError`, whose message contains the underlying
failure description and which carries no HTTP status code. -/
theorem allConnFailures (transport : Nat → AttemptResult String)
    (endpoint : String) (m : Nat → String)
    (h : ∀ i, transport i = .connError (m i)) :
    makeRequest endpoint transport =
      ⟨3, [1, 2], .err (.networkError (m 2))⟩ ∧
    (∃ a b : String, (GHError.networkError (m 2)).message = a ++ m 2 ++ b) ∧
    (GHError.networkError (m 2)).status_code = none := by
  refine ⟨?_, ⟨"Network error: ", "", by simp [GHError.message]⟩, rfl⟩
  have s0 : makeRequest endpoint transport =
      sleepThen 1 (runFrom endpoint transport 2 1) := by
    show runFrom endpoint transport (2 + 1) 0 = _
    rw [runFrom_succ, h 0]
    simp [attemptStep, MAX_RETRIES, INITIAL_BACKOFF]
  have s1 : runFrom endpoint transport 2 1 =
      sleepThen 2 (runFrom endpoint transport 1 2) := by
    show runFrom endpoint transport (1 + 1) 1 = _
    rw [runFrom_succ, h 1]
    simp [attemptStep, MAX_RETRIES, INITIAL_BACKOFF]
  have s2 : runFrom endpoint transport 1 2 =
      ⟨1, [], .err (.networkError (m 2))⟩ := by
    show runFrom endpoint transport (0 + 1) 2 = _
    rw [runFrom_succ, h 2]
    simp [attemptStep, MAX_RETRIES]
  rw [s0, s1, s2]
  simp [sleepThen]

/-- Witness for C4 at a concrete transport. -/
theorem allConnFailures_w :
    makeRequest "/repos/octocat/Hello-World" tConnFail =
      ⟨3, [1, 2], .err (.networkError "Connection refused")⟩ :=
  (allConnFailures tConnFail "/repos/octocat/Hello-World"
    (fun _ => "Connection refused") (fun _ => rfl)).1

/-! Unreachability of the post-loop fallback (C7). -/

/-- Messages of `GitHubAPIError`s raised inside the loop never collide
with the post-loop fallback message. -/
theorem requestFailedNe (s : String) :
    "Request failed: " ++ s ≠ "Max retries exceeded" := by
  intro h
  have h2 : "Request failed: ".data ++ s.data = "Max retries exceeded".data := by
    rw [← String.data_append, h]
  have h3 : ("Request failed: ".data ++ s.data).take 4 =
      "Max retries exceeded".data.take 4 := by rw [h2]
  rw [List.take_append_of_le_length (by decide)] at h3
  exact absurd h3 (by decide)

/-- With retrying disallowed (the last loop iteration), no attempt
outcome leads to a sleep-and-continue. -/
theorem attemptStep_last_not_retry {α : Type} (endpoint : String)
    (attempt : Nat) (res : AttemptResult α) (d : Int) :
    attemptStep endpoint attempt false res ≠ .retry d := by
  intro h
  cases res with
  | connError m => simp [attemptStep] at h
  | reqError m => simp [attemptStep] at h
  | response status reason hdr body =>
      rcases hc : computedRetryAfter hdr attempt with _ | n
      · simp [attemptStep, hc] at h
        split_ifs at h
      · simp [attemptStep, hc] at h
        split_ifs at h

/-- No terminal outcome decided inside the loop body equals the
post-loop fallback error. -/
theorem attemptStep_done_ne_fallback {α : Type} (endpoint : String)
    (attempt : Nat) (retryAllowed : Bool) (res : AttemptResult α)
    (r : ExecResult α) (h : attemptStep endpoint attempt retryAllowed res = .done r) :
    r ≠ .err (.apiError "Max retries exceeded") := by
  intro hbad
  subst hbad
  cases res with
  | connError m =>
      simp [attemptStep] at h
      split_ifs at h
      simp_all
  | reqError m =>
      simp [attemptStep] at h
      exact requestFailedNe m h
  | response status reason hdr body =>
      rcases hc : computedRetryAfter hdr attempt with _ | n <;>
        simp [attemptStep, hc] at h <;> split_ifs at h <;>
        simp_all [requestFailedNe]

/-- The loop, started with the fuel matching the remaining attempt
budget, issues at most `fuel` requests and never produces the post-loop
fallback error. -/
theorem runFrom_inv {α : Type} (endpoint : String)
    (transport : Nat → AttemptResult α) :
    ∀ fuel attempt : Nat, 1 ≤ fuel → attempt + fuel = MAX_RETRIES →
    (runFrom endpoint transport fuel attempt).attempts ≤ fuel ∧
    (runFrom endpoint transport fuel attempt).result ≠
      .err (.apiError "Max retries exceeded") := by
  intro fuel
  induction fuel with
  | zero => intro attempt h1 _; exact absurd h1 (by omega)
  | succ n ih =>
      intro attempt _ hsum
      rw [runFrom_succ]
      rcases hstep : attemptStep endpoint attempt
          (decide (attempt < MAX_RETRIES - 1)) (transport attempt) with r | d
      · refine ⟨by simp, ?_⟩
        simpa using attemptStep_done_ne_fallback endpoint attempt _ _ r hstep
      · have hlt : attempt < MAX_RETRIES - 1 := by
          by_contra hge
          rw [show decide (attempt < MAX_RETRIES - 1) = false by
            simpa using hge] at hstep
          exact attemptStep_last_not_retry endpoint attempt (transport attempt)
            d hstep
        have hn : 1 ≤ n := by simp [MAX_RETRIES] at hsum hlt ⊢; omega
        have ihh := ih (attempt + 1) hn (by omega)
        simp only [sleepThen]
        split
        · exact ⟨by simp, by simp⟩
        · exact ⟨by simpa using Nat.add_le_add_right ihh.1 1, by simpa using ihh.2⟩

/-- C7: for every transport behaviour, the retry loop of
`_make_request` returns or raises within its `MAX_RETRIES` iterations,
so the final generic `Max retries exceeded` `GitHubAPIError` after the
loop is never raised. -/
theorem loopNeverFallsThrough {α : Type} (endpoint : String)
    (transport : Nat → AttemptResult α) :
    (makeRequest endpoint transport).attempts ≤ MAX_RETRIES ∧
    (makeRequest endpoint transport).result ≠
      .err (.apiError "Max retries exceeded") :=
  runFrom_inv endpoint transport MAX_RETRIES 0 (by decide) rfl

/-- Counterexample to C1 as stated: a 429 response whose `Retry-After`
header is the non-integer string `soon` on attempts 0 and 1 and a 200 on
attempt 2 gives one attempt and an uncaught `ValueError`, not three
attempts and the 200 payload. -/
theorem twoRateLimitsThenSuccess_cex :
    (makeRequest "/repos/octocat/Hello-World" tTwo429SoonThen200).attempts
        = 1 ∧
    (makeRequest "/repos/octocat/Hello-World" tTwo429SoonThen200).attempts
        ≠ 3 ∧
    (makeRequest "/repos/octocat/Hello-World" tTwo429SoonThen200).result =
      .valueError "invalid literal for int() with base 10: soon" ∧
    ∀ p : String,
      (makeRequest "/repos/octocat/Hello-World" tTwo429SoonThen200).result
        ≠ .ok p := by
  refine ⟨rfl, by decide, rfl, ?_⟩
  intro p hp
  rw [show (makeRequest "/repos/octocat/Hello-World" tTwo429SoonThen200).result
      = .valueError "invalid literal for int() with base 10: soon" from rfl]
    at hp
  exact ExecResult.noConfusion hp

/-- C1 (amended): two 429 responses, whose `Retry-After` headers — when
present — parse as nonnegative integers, followed by a 2xx response,
yield exactly three attempts and return the 2xx payload; the sleeps are
the computed retry-after values. -/
theorem twoRateLimitsThenSuccess (transport : Nat → AttemptResult String)
    (endpoint r0 r1 r2 : String) (h0 h1 h2 : Option String)
    (b0 b1 p : String) (n0 n1 : Int) (st2 : Nat)
    (ht0 : transport 0 = .response 429 r0 h0 b0)
    (hra0 : computedRetryAfter h0 0 = some n0) (hn0 : 0 ≤ n0)
    (ht1 : transport 1 = .response 429 r1 h1 b1)
    (hra1 : computedRetryAfter h1 1 = some n1) (hn1 : 0 ≤ n1)
    (ht2 : transport 2 = .response st2 r2 h2 p)
    (hst2 : 200 ≤ st2 ∧ st2 < 300) :
    makeRequest endpoint transport = ⟨3, [n0, n1], .ok p⟩ := by
  have s0 : makeRequest endpoint transport =
      sleepThen n0 (runFrom endpoint transport 2 1) := by
    show runFrom endpoint transport (2 + 1) 0 = _
    rw [runFrom_succ, ht0, step429or403 (Or.inl rfl) hra0]
    simp [MAX_RETRIES]
  have s1 : runFrom endpoint transport 2 1 =
      sleepThen n1 (runFrom endpoint transport 1 2) := by
    show runFrom endpoint transport (1 + 1) 1 = _
    rw [runFrom_succ, ht1, step429or403 (Or.inl rfl) hra1]
    simp [MAX_RETRIES]
  have s2 : runFrom endpoint transport 1 2 = ⟨1, [], .ok p⟩ := by
    show runFrom endpoint transport (0 + 1) 2 = _
    rw [runFrom_succ, ht2, stepSuccess hst2]
  have hs0 : ¬(n0 < 0) := by omega
  have hs1 : ¬(n1 < 0) := by omega
  rw [s0, s1, s2]
  simp [sleepThen, hs0, hs1]

/-- Witness for the amended C1 at a concrete transport
(`Retry-After: 7` on the two 429 responses). -/
theorem twoRateLimitsThenSuccess_w :
    makeRequest "/repos/octocat/Hello-World" tTwo429Then200 =
      ⟨3, [7, 7], .ok "payload"⟩ :=
  twoRateLimitsThenSuccess tTwo429Then200 "/repos/octocat/Hello-World"
    "Too Many Requests" "Too Many Requests" "OK" (some "7") (some "7") none
    "" "" "payload" 7 7 200 rfl rfl (by decide) rfl rfl (by decide) rfl
    (by omega)

/-- Counterexample to C2 as stated: a constant 429 response whose
`Retry-After` header is the non-integer string `soon` gives one attempt
and an uncaught `ValueError`, not `MAX_RETRIES` attempts and a
`RateLimitExceeded`. -/
theorem allRateLimited_cex :
    (makeRequest "/repos/octocat/Hello-World" tMalformedHdr).attempts = 1 ∧
    (makeRequest "/repos/octocat/Hello-World" tMalformedHdr).attempts
        ≠ MAX_RETRIES ∧
    ∀ ra : Option Int,
      (makeRequest "/repos/octocat/Hello-World" tMalformedHdr).result ≠
        .err (.rateLimitExceeded ra) := by
  refine ⟨rfl, by decide, ?_⟩
  intro ra hra
  rw [show (makeRequest "/repos/octocat/Hello-World" tMalformedHdr).result
      = .valueError "invalid literal for int() with base 10: soon" from rfl]
    at hra
  exact ExecResult.noConfusion hra

/-- C2 (amended): when every attempt yields a 429 or 403 response, each
`Retry-After` header — when present — parsing as an integer (nonnegative
on the slept attempts), `_make_request` performs exactly `MAX_RETRIES`
(3) attempts and raises `RateLimitExceeded` carrying the retry-after
value computed for the final attempt. -/
theorem allRateLimited (transport : Nat → AttemptResult String)
    (endpoint r0 r1 r2 : String) (h0 h1 h2 : Option String)
    (b0 b1 b2 : String) (n0 n1 n2 : Int) (st0 st1 st2 : Nat)
    (ht0 : transport 0 = .response st0 r0 h0 b0)
    (hst0 : st0 = 429 ∨ st0 = 403)
    (hra0 : computedRetryAfter h0 0 = some n0) (hn0 : 0 ≤ n0)
    (ht1 : transport 1 = .response st1 r1 h1 b1)
    (hst1 : st1 = 429 ∨ st1 = 403)
    (hra1 : computedRetryAfter h1 1 = some n1) (hn1 : 0 ≤ n1)
    (ht2 : transport 2 = .response st2 r2 h2 b2)
    (hst2 : st2 = 429 ∨ st2 = 403)
    (hra2 : computedRetryAfter h2 2 = some n2) :
    MAX_RETRIES = 3 ∧
    makeRequest endpoint transport =
      ⟨3, [n0, n1], .err (.rateLimitExceeded (some n2))⟩ := by
  refine ⟨rfl, ?_⟩
  have s0 : makeRequest endpoint transport =
      sleepThen n0 (runFrom endpoint transport 2 1) := by
    show runFrom endpoint transport (2 + 1) 0 = _
    rw [runFrom_succ, ht0, step429or403 hst0 hra0]
    simp [MAX_RETRIES]
  have s1 : runFrom endpoint transport 2 1 =
      sleepThen n1 (runFrom endpoint transport 1 2) := by
    show runFrom endpoint transport (1 + 1) 1 = _
    rw [runFrom_succ, ht1, step429or403 hst1 hra1]
    simp [MAX_RETRIES]
  have s2 : runFrom endpoint transport 1 2 =
      ⟨1, [], .err (.rateLimitExceeded (some n2))⟩ := by
    show runFrom endpoint transport (0 + 1) 2 = _
    rw [runFrom_succ, ht2, step429or403 hst2 hra2]
    simp [MAX_RETRIES]
  have hs0 : ¬(n0 < 0) := by omega
  have hs1 : ¬(n1 < 0) := by omega
  rw [s0, s1, s2]
  simp [sleepThen, hs0, hs1]

/-- Witness for the amended C2 at a concrete transport (constant 429
with no `Retry-After` header: exponential backoff 1, 2 and a final
retry-after of 4). -/
theorem allRateLimited_w :
    makeRequest "/repos/octocat/Hello-World" tAll429 =
      ⟨3, [1, 2], .err (.rateLimitExceeded (some 4))⟩ := by
  have h := (allRateLimited tAll429 "/repos/octocat/Hello-World"
    "Too Many Requests" "Too Many Requests" "Too Many Requests"
    none none none "" "" "" 1 2 4 429 429 429
    rfl (Or.inl rfl) (by decide) (by decide)
    rfl (Or.inl rfl) (by decide) (by decide)
    rfl (Or.inl rfl) (by decide)).2
  exact h

/-- Witness for C10: the concrete header value `soon` on a 429. -/
theorem malformedRetryAfterValueError_w :
    (makeRequest "/repos/octocat/Hello-World" tMalformedHdr).attempts = 1 ∧
    (makeRequest "/repos/octocat/Hello-World" tMalformedHdr).result =
      .valueError "invalid literal for int() with base 10: soon" := by
  have h := (malformedRetryAfterValueError "/repos/octocat/Hello-World"
    "Too Many Requests" "soon" "" 429 (Or.inl rfl) rfl).2 tMalformedHdr rfl
  exact ⟨h.1, h.2.2.1⟩

/-- C8: the built headers always contain the `Accept` and
`X-GitHub-Api-Version` pair; they contain an `Authorization` header — a
bearer header built from the stored token — exactly when a credential is
present, where presence is Python truthiness of the stored token
(`None` and the empty string count as absent). -/
theorem headersSpec (c : GitHubClient) :
    ("Accept", "application/vnd.github+json") ∈ c.getHeaders ∧
    ("X-GitHub-Api-Version", "2022-11-28") ∈ c.getHeaders ∧
    ((∃ v, ("Authorization", v) ∈ c.getHeaders) ↔ pyTruthy c.token = true) ∧
    (∀ t : String, c.token = some t → t.isEmpty = false →
      ("Authorization", "Bearer " ++ t) ∈ c.getHeaders) := by
  refine ⟨?_, ?_, ?_, ?_⟩
  · unfold GitHubClient.getHeaders
    by_cases h : pyTruthy c.token <;> simp [h]
  · unfold GitHubClient.getHeaders
    by_cases h : pyTruthy c.token <;> simp [h]
  · unfold GitHubClient.getHeaders
    by_cases h : pyTruthy c.token <;> simp [h]
  · intro t ht hne
    simp [GitHubClient.getHeaders, ht, pyTruthy, hne]

/-- Witness for C8 at a concrete client holding a token. -/
theorem headersSpec_w :
    ("Authorization", "Bearer tok123") ∈
      (GitHubClient.mk (some "tok123")).getHeaders :=
  (headersSpec ⟨some "tok123"⟩).2.2.2 "tok123" rfl rfl

/-- Counterexample to C9 as stated: an explicitly supplied empty token
is falsy, so `token or os.getenv("GITHUB_TOKEN")` stores the environment
value instead of the explicitly supplied token. -/
theorem tokenPrecedence_cex :
    (GitHubClient.init (some "") (some "env-token")).token
        = some "env-token" ∧
    (GitHubClient.init (some "") (some "env-token")).token ≠ some "" := by
  exact ⟨rfl, by decide⟩

/-- C9 (amended): the stored credential is the explicitly supplied token
whenever a truthy (non-empty) one is given; when the explicit token is
absent or empty, the environment value is stored. -/
theorem tokenPrecedence (t : String) (envToken : Option String) :
    (t.isEmpty = false →
      (GitHubClient.init (some t) envToken).token = some t) ∧
    (GitHubClient.init (some "") envToken).token = envToken ∧
    (GitHubClient.init none envToken).token = envToken := by
  refine ⟨?_, rfl, rfl⟩
  intro ht
  simp [GitHubClient.init, pyTruthy, ht]

/-- Witness for the amended C9 at concrete token values. -/
theorem tokenPrecedence_w :
    (GitHubClient.init (some "abc") (some "env-token")).token = some "abc" :=
  (tokenPrecedence "abc" (some "env-token")).1 rfl

end GithubConnector
